import Mathlib

/-!
# WinMLRunner — verification of the binding dispatcher and measurement engine

Shallow embedding of the WinMLRunner benchmarking harness
(`Tools/WinMLRunner`): the tensor binding dispatcher (`BindingUtilities.h`),
the run-orchestration control flow (`Main.cpp`), the output and aggregation
helpers (`OutputHelper.h`) and the relevant parts of `CommandLineArgs.h`.

Modelling conventions:
* machine floating-point values that only flow through arithmetic are
  modelled as exact rationals;
* buffer cells are `Option` values, so a cell that was never written is
  distinguishable from every written value;
* C++ exceptions (`hresult_error`) become `Except` results.
-/

namespace WinMLRunner

/-- Tensor element kinds, in the order of the `TensorKind` idl enum (the same
order is mirrored by the `tensorKind` string table in
`OutputHelper.h::FeatureDescriptorToString`). -/
inductive TensorKind where
  | undefined
  | float
  | uint8
  | int8
  | uint16
  | int16
  | int32
  | int64
  | string
  | boolean
  | float16
  | double
  | uint32
  | uint64
  | complex64
  | complex128
deriving DecidableEq, Repr

/-- Errors thrown by the binding utilities: `hresult_invalid_argument`
(size/shape mismatch, undefined kind) and `hresult_not_implemented`
(unsupported tensor kind). -/
inductive BindingError where
  | invalidArgument
  | notImplemented
deriving DecidableEq, Repr

/-- The storage type `T` that `CreateBindableTensor` instantiates
`ModelBinding<T>` with for each tensor kind. -/
inductive Storage where
  | u8
  | i16
  | u16
  | i32
  | u32
  | i64
  | u64
  | f32
  | f64
deriving DecidableEq, Repr

/-- Which `ModelBinding<T>` the dispatch switch in
`BindingUtilities.h::CreateBindableTensor` selects for each tensor kind.
Note that `TensorKind::Int8` instantiates `ModelBinding<uint8_t>` (same as
`UInt8`), and `Float16` reuses `ModelBinding<float>` (same as `Float`).
Kinds with no case (and `Undefined`) map to `none`. -/
def storageOf : TensorKind → Option Storage
  | .float => some .f32
  | .float16 => some .f32
  | .double => some .f64
  | .int8 => some .u8
  | .uint8 => some .u8
  | .int16 => some .i16
  | .uint16 => some .u16
  | .int32 => some .i32
  | .uint32 => some .u32
  | .int64 => some .i64
  | .uint64 => some .u64
  | _ => none

/-- The whitespace set skipped by formatted stream extraction in the "C"
locale (`std::isspace`). -/
def cppIsSpace (c : Char) : Bool :=
  c = ' ' || c = '\t' || c = '\n' || c = '\x0b' || c = '\x0c' || c = '\r'

/-- Formatted stream extraction into an 8-bit character type
(`std::stringstream >> uint8_t`): skip leading whitespace, then consume a
single character and store its character code.  If nothing remains the
extraction fails and the (uninitialized) target is left unwritten,
modelled as `none`. -/
def extractChar (s : String) : Option ℚ :=
  match s.toList.dropWhile cppIsSpace with
  | [] => none
  | c :: _ => some (c.toNat : ℚ)

/-- Consume an optional leading sign; returns (isNegative, rest). -/
def parseSignChars : List Char → Bool × List Char
  | '-' :: rest => (true, rest)
  | '+' :: rest => (false, rest)
  | l => (false, l)

/-- Value of a decimal digit string. -/
def digitsToNat (ds : List Char) : ℕ :=
  ds.foldl (fun a c => 10 * a + (c.toNat - 48)) 0

/-- Formatted stream extraction of a decimal integer (`num_get`): skip
whitespace, optional sign, then a non-empty digit string; `none` when no
digit is found (extraction failure). -/
def parseCppInt (s : String) : Option ℤ :=
  let l := s.toList.dropWhile cppIsSpace
  let p := parseSignChars l
  let ds := p.2.takeWhile Char.isDigit
  if ds.isEmpty then none
  else some (if p.1 then -(digitsToNat ds : ℤ) else (digitsToNat ds : ℤ))

/-- Out-of-range decimal input clamps to the representable range for signed
integer extraction (C++11 `num_get`). -/
def signedClamp (bits : ℕ) (v : ℤ) : ℤ :=
  max (-(2 ^ (bits - 1))) (min v (2 ^ (bits - 1) - 1))

/-- Unsigned integer extraction: a negative field wraps modulo `2 ^ bits`,
an overflowing positive field clamps to the maximum. -/
def unsignedStore (bits : ℕ) (v : ℤ) : ℤ :=
  if v < 0 then v % 2 ^ bits else min v (2 ^ bits - 1)

/-- Decimal integer cell parse for a `bits`-wide integer storage type; a
failed extraction stores zero (C++11 behavior for arithmetic types). -/
def parseIntElement (bits : ℕ) (signed : Bool) (s : String) : ℚ :=
  match parseCppInt s with
  | none => 0
  | some v => ((if signed then signedClamp bits v else unsignedStore bits v : ℤ) : ℚ)

/-- Decimal floating-point cell parse (`std::stringstream >> float/double`),
with the value kept exact as a rational: optional sign, digits, optional
fraction, optional decimal exponent; a failed extraction stores zero.
(Rounding to binary floating point is not modelled; no claim inspects
these values.) -/
def parseCppFloat (s : String) : Option ℚ :=
  let l := s.toList.dropWhile cppIsSpace
  let p := parseSignChars l
  let ip := p.2.takeWhile Char.isDigit
  let r1 := p.2.drop ip.length
  let fp := match r1 with
    | '.' :: rest => rest.takeWhile Char.isDigit
    | _ => []
  let r2 := match r1 with
    | '.' :: rest => rest.drop fp.length
    | _ => r1
  if ip.isEmpty && fp.isEmpty then none
  else
    let mant : ℚ := (digitsToNat ip : ℚ) + (digitsToNat fp : ℚ) / (10 ^ fp.length)
    let signedMant := if p.1 then -mant else mant
    match r2 with
    | c :: rest =>
      if c = 'e' || c = 'E' then
        let q := parseSignChars rest
        let eds := q.2.takeWhile Char.isDigit
        if eds.isEmpty then some signedMant
        else if q.1 then some (signedMant / 10 ^ digitsToNat eds)
        else some (signedMant * 10 ^ digitsToNat eds)
      else some signedMant
    | [] => some signedMant

/-- Float cell parse with the C++11 store-zero-on-failure rule. -/
def parseFloatElement (s : String) : ℚ :=
  (parseCppFloat s).getD 0

/-- One CSV cell parsed into the given storage type, as performed by
`T value; std::stringstream(elementString) >> value;` inside
`BindingUtilities.h::WriteDataToBinding`.  For the 8-bit storage the
extraction is character extraction; a failed character extraction leaves
the uninitialized `value` unwritten (`none`). -/
def parseElement : Storage → String → Option ℚ
  | .u8, s => extractChar s
  | .i16, s => some (parseIntElement 16 true s)
  | .u16, s => some (parseIntElement 16 false s)
  | .i32, s => some (parseIntElement 32 true s)
  | .u32, s => some (parseIntElement 32 false s)
  | .i64, s => some (parseIntElement 64 true s)
  | .u64, s => some (parseIntElement 64 false s)
  | .f32, s => some (parseFloatElement s)
  | .f64, s => some (parseFloatElement s)

/-- `BindingUtilities.h::WriteDataToBinding`: throws
`hresult_invalid_argument` when the binding's declared buffer size differs
from the number of element strings, otherwise parses and stores every
element in order. -/
def writeDataToBinding (st : Storage) (elementStrings : List String)
    (bufSize : ℕ) : Except BindingError (List (Option ℚ)) :=
  if bufSize ≠ elementStrings.length then .error .invalidArgument
  else .ok (elementStrings.map (parseElement st))

/-- `BindingUtilities.h::CreateBindableTensor`: dispatch on the tensor kind;
`Undefined` throws `hresult_invalid_argument`, unsupported kinds throw
`hresult_not_implemented`.  Each supported case builds a `ModelBinding<T>`,
takes the element strings either from the CSV row or — when no CSV path is
given — as `std::vector<std::string>(binding.GetDataBufferSize())`
(that many default-constructed empty strings), and calls
`WriteDataToBinding<T>`.  The declared buffer size of `ModelBinding`
(`ModelBinding.h` is not under the sources provided) is modelled from the
spec as the product of the shape dimensions. -/
def createBindableTensor (kind : TensorKind) (shape : List ℕ)
    (csvRow : Option (List String)) : Except BindingError (List (Option ℚ)) :=
  match kind with
  | .undefined => .error .invalidArgument
  | k =>
    match storageOf k with
    | none => .error .notImplemented
    | some st =>
      let elementStrings := match csvRow with
        | none => List.replicate shape.prod ""
        | some row => row
      writeDataToBinding st elementStrings shape.prod

/-- The planar channel-major buffer written by the de-interleaving loop in
`BindingUtilities.h::PreProcessImageToBinding`: for every pixel position
`i < hw` (`hw = imgHeight * imgWidth`) the loop stores
`bindingData[i]            = (sbBufferData[4*i]   - meanStdDev[0]) / scale`,
`bindingData[i + hw]       = (sbBufferData[4*i+1] - meanStdDev[1]) / scale`,
`bindingData[i + 2*hw]     = (sbBufferData[4*i+2] - meanStdDev[2]) / scale`,
computed in floating point and narrowed to the storage type `T` only on
store (`narrow` is that conversion; the identity for float storages). -/
def deinterleavedBuffer (hw : ℕ) (sb : ℕ → ℕ) (scale : ℚ) (mean : Fin 3 → ℚ)
    (narrow : ℚ → ℚ) : List (Option ℚ) :=
  (List.range (3 * hw)).map fun idx =>
    if idx < hw then
      some (narrow (((sb (4 * idx) : ℚ) - mean 0) / scale))
    else if idx < 2 * hw then
      some (narrow (((sb (4 * (idx - hw) + 1) : ℚ) - mean 1) / scale))
    else
      some (narrow (((sb (4 * (idx - 2 * hw) + 2) : ℚ) - mean 2) / scale))

/-- `BindingUtilities.h::PreProcessImageToBinding<T>`: throws
`hresult_invalid_argument` unless the binding's buffer size equals
`imgHeight * imgWidth * 3`; then the packed 4-byte-per-pixel source buffer
is de-interleaved into planar channel-major order — but only under the
guard `scale != 1.0f && (meanStdDev[0] != 0 || meanStdDev[1] != 0 ||
meanStdDev[2] != 0)`; otherwise the function returns with the binding
buffer untouched (cells stay unwritten, modelled as `none`). -/
def preProcessImageToBinding (imgHeight imgWidth : ℕ) (sb : ℕ → ℕ)
    (bufSize : ℕ) (scale : ℚ) (mean : Fin 3 → ℚ) (narrow : ℚ → ℚ) :
    Except BindingError (List (Option ℚ)) :=
  if bufSize ≠ imgHeight * imgWidth * 3 then .error .invalidArgument
  else if scale ≠ 1 ∧ (mean 0 ≠ 0 ∨ mean 1 ≠ 0 ∨ mean 2 ≠ 0) then
    .ok (deinterleavedBuffer (imgHeight * imgWidth) sb scale mean narrow)
  else .ok (List.replicate bufSize none)

/-! ## Run orchestration (`Main.cpp`) -/

/-- HRESULT values; `S_OK` is zero, failures are nonzero. -/
abbrev HRESULT := ℤ

/-- Success HRESULT. -/
def S_OK : HRESULT := 0

/-- Observable outcome of the perf-capture evaluation loop in
`Main.cpp::EvaluateModel`: the returned result, how many `Evaluate` calls
were attempted, and how many wall-clock times were pushed onto
`m_clockEvalTimes` (the push happens only after a successful call). -/
structure EvalLoopResult where
  hr : Except HRESULT Unit
  evalAttempts : ℕ
  recordedTimes : ℕ
deriving Repr

/-- The iteration loop of `Main.cpp::EvaluateModel` (perf-capture path):
`for (UINT i = 0; i < args.NumIterations(); i++)` evaluates the session;
a caught `hresult_error` makes the function return `hr.code()`
immediately.  `evalAt i` is iteration `i`'s evaluate outcome. -/
def evalLoopAux (evalAt : ℕ → Except HRESULT Unit) :
    ℕ → ℕ → EvalLoopResult
  | 0, i => ⟨Except.ok (), i, i⟩
  | fuel + 1, i =>
    match evalAt i with
    | .error e => ⟨.error e, i + 1, i⟩
    | .ok _ => evalLoopAux evalAt fuel (i + 1)

/-- The evaluation loop run for `numIterations` iterations from the start. -/
def evalLoop (numIterations : ℕ) (evalAt : ℕ → Except HRESULT Unit) :
    EvalLoopResult :=
  evalLoopAux evalAt numIterations 0

/-- The per-device behavior of one model in `Main.cpp::EvaluateModel`:
outcomes of session creation, binding, and each evaluate call. -/
structure ModelRunSpec where
  sessionResult : Except HRESULT Unit
  bindResult : Except HRESULT Unit
  evalAt : ℕ → Except HRESULT Unit

/-- `Main.cpp::EvaluateModel` (perf-capture path): session-creation failure,
bind failure, or any evaluate failure each return that error's code;
otherwise the function returns `S_OK`. -/
def evaluateModel (m : ModelRunSpec) (numIterations : ℕ) : HRESULT :=
  match m.sessionResult with
  | .error e => e
  | .ok _ =>
    match m.bindResult with
    | .error e => e
    | .ok _ =>
      match (evalLoop numIterations m.evalAt).hr with
      | .error e => e
      | .ok _ => S_OK

/-- One directory entry seen by `Main.cpp::EvaluateModelsInDirectory`:
whether its path contains `".onnx"` or `".pb"`, the model-load outcome,
and the per-device run behavior. -/
structure DirEntry where
  name : String
  isModelFile : Bool
  loadResult : Except HRESULT Unit
  cpu : ModelRunSpec
  gpu : ModelRunSpec

/-- The device-selection flags consulted by the directory loop. -/
structure DirArgs where
  useCPUandGPU : Bool
  useCPU : Bool
  useGPU : Bool
  numIterations : ℕ

/-- The per-entry device passes of the directory loop: the CPU pass runs
when `UseCPUandGPU() || UseCPU()` and its non-`S_OK` result is returned at
once; then likewise the GPU pass when `UseCPUandGPU() || UseGPU()`. -/
def evalEntryDevices (args : DirArgs) (e : DirEntry) : HRESULT :=
  let hrCpu :=
    if args.useCPUandGPU || args.useCPU then evaluateModel e.cpu args.numIterations
    else S_OK
  if hrCpu ≠ S_OK then hrCpu
  else if args.useCPUandGPU || args.useGPU then evaluateModel e.gpu args.numIterations
  else S_OK

/-- `Main.cpp::EvaluateModelsInDirectory`: iterate the directory; for each
model file, a load failure makes the function `return hr.code()`
immediately, as does a failing device pass; on success
`WritePerformanceDataToCSV` appends the model's summary row (modelled by
its name) and the helper is reset.  Returns the rows written and the
function's HRESULT. -/
def evaluateModelsInDirectory (args : DirArgs) :
    List DirEntry → List String × HRESULT
  | [] => ([], S_OK)
  | e :: rest =>
    if e.isModelFile then
      match e.loadResult with
      | .error hr => ([], hr)
      | .ok _ =>
        let hr := evalEntryDevices args e
        if hr ≠ S_OK then ([], hr)
        else
          let tail := evaluateModelsInDirectory args rest
          (e.name :: tail.1, tail.2)
    else evaluateModelsInDirectory args rest

/-! ## Command-line arguments (`src/CommandLineArgs.h`) and the
iteration time limit -/

/-- The `CommandLineArgs` fields relevant to the iteration time limit, with
their in-class initializers (`m_timeLimitIterations = false`,
`m_iterationTimeLimitMilliseconds = 0`, `m_numIterations = 1`). -/
structure CommandLineArgsState where
  timeLimitIterations : Bool := false
  iterationTimeLimitMilliseconds : ℚ := 0
  numIterations : ℕ := 1

/-- `CommandLineArgs::SetIterationTimeLimit`: "Stop iterating when total
time of iterations after the first iteration exceeds time limit." -/
def setIterationTimeLimit (args : CommandLineArgsState) (milliseconds : ℚ) :
    CommandLineArgsState :=
  { args with timeLimitIterations := true,
              iterationTimeLimitMilliseconds := milliseconds }

/-- Cumulative duration of the iterations after the first, through
iteration `k` (iterations are numbered from 0; iteration 0 is excluded). -/
def sumAfterFirst (dur : ℕ → ℚ) (k : ℕ) : ℚ :=
  ((List.range k).map fun j => dur (j + 1)).sum

/-- Modelled from the spec: the per-configuration evaluation loop honoring
the iteration time limit.  The run loop that consumes
`IsTimeLimitIterations()` / `IterationTimeLimit()` is not under the
sources provided (only their declarations in `src/CommandLineArgs.h`
are).  Spec: evaluation "may optionally stop early once the cumulative
elapsed time after the first iteration exceeds a configured time budget,
even if N has not been reached", with the early-exit check "performed
between iterations".  State: remaining fuel, next iteration index `i`,
cumulative elapsed time of iterations after the first. -/
def timedEvalLoopAux (dur : ℕ → ℚ) (limitOn : Bool) (limit : ℚ) :
    ℕ → ℕ → ℚ → ℕ
  | 0, i, _ => i
  | fuel + 1, i, elapsed =>
    if limitOn ∧ 1 ≤ i ∧ limit < elapsed then i
    else timedEvalLoopAux dur limitOn limit fuel (i + 1)
        (elapsed + if i = 0 then 0 else dur i)

/-- Number of iterations actually completed by the time-limited loop for a
given configuration. -/
def completedIterations (args : CommandLineArgsState) (dur : ℕ → ℚ) : ℕ :=
  timedEvalLoopAux dur args.timeLimitIterations
    args.iterationTimeLimitMilliseconds args.numIterations 0 0

/-- Modelled from the spec: the iteration count a configuration reports for
statistics purposes is the actual completed count. -/
structure RunReport where
  iterations : ℕ

/-- The report produced after the time-limited loop finishes. -/
def runConfigurationReport (args : CommandLineArgsState) (dur : ℕ → ℚ) :
    RunReport :=
  ⟨completedIterations args dur⟩

/-! ## Measurement averages and output rendering (`OutputHelper.h`) -/

/-- Modelled from the spec: `Profiler::GetAverage` (the profiler lives in
`Common.h`, which is not under the sources provided; only its callers in
`OutputHelper.h` are).  Spec §4.2: the arithmetic mean over all recorded
samples for a slot and counter, with a "not-available" sentinel when the
slot has zero samples.  The sentinel is a NaN double in the source (cf.
the `isnan` checks in `OutputHelper.h`); it is modelled as `none`. -/
def getAverage (samples : List ℚ) : Option ℚ :=
  if samples.isEmpty then none else some (samples.sum / samples.length)

/-- The per-slot sample series `WritePerformanceDataToCSV` and
`PrintResults` read from the profiler. -/
structure ProfilerData where
  loadTimer : List ℚ
  bindTimer : List ℚ
  evalTimer : List ℚ
  evalWorkingSet : List ℚ
  evalGpuShared : List ℚ
  evalGpuDedicated : List ℚ

/-- Streaming a double into an output stream: a NaN (the zero-sample
sentinel) prints as `"nan"`, never as `"N/A"` and never as `"0"`; a real
value prints as its decimal rendering (numeric formatting abstracted). -/
def renderAvgRaw : Option ℚ → String
  | none => "nan"
  | some v => toString v

/-- `fout << bool` without `boolalpha` prints `1` or `0`. -/
def boolCell (b : Bool) : String :=
  if b then "1" else "0"

/-- The `OutputHelper` member state read by the writers.  Empty file-name
strings are modelled as `none`. -/
structure OutputHelperState where
  silent : Bool
  csvFileName : Option String
  csvFileNamePerIteration : Option String
  csvResult : Option String
  fileNameIter : String
  fileNameRes : String
  clockLoadTime : ℚ
  clockBindTimes : List ℚ
  clockEvalTimes : List ℚ
  results : List String
  hashes : List ℤ
  cpuWorkingDiff : List ℚ
  cpuWorkingStart : List ℚ
  gpuSharedDiff : List ℚ
  gpuSharedStart : List ℚ
  gpuDedicatedDiff : List ℚ
  clockLoadTimes : List ℚ

/-- The non-profiler inputs of one summary row. -/
structure SummaryRowMeta where
  modelName : String
  modelBinding : String
  inputBinding : String
  inputType : String
  deviceCreationLocation : String
  numIterations : ℤ
  firstRunIgnored : Bool

/-- The header line `WritePerformanceDataToCSV` writes into an empty
summary CSV file. -/
def summaryHeader : String :=
  "Model Name,Model Binding,Input Binding,Input Type,Device Creation Location,Iterations,First Run Ignored,Load (ms),Bind (ms),Evaluate (ms),Total Time (ms),Working Set Memory usage (evaluate) (MB),GPU Dedicated memory usage (evaluate) (MB),GPU Shared memory usage (evaluate) (MB),Wall-clock Load (ms),Wall-clock Bind (ms),Wall-clock Evaluate (ms),Wall-clock total time (ms),PerIterationFile,ResultFile"

/-- The 20 cells of one summary data row, in header order.  The Load cell
alone is guarded by `isnan(loadTime) ? "N/A" : std::to_string(loadTime)`;
every other averaged cell streams the double raw.  `totalTime` replaces a
NaN load by 0 but lets a NaN bind or evaluate average propagate.  The two
wall-clock averages divide by `numIterations` as doubles. -/
def summaryDataRowCells (o : OutputHelperState) (p : ProfilerData)
    (m : SummaryRowMeta) : List String :=
  let loadTime := getAverage p.loadTimer
  let bindTime := getAverage p.bindTimer
  let evalTime := getAverage p.evalTimer
  let evalMemoryUsage := getAverage p.evalWorkingSet
  let gpuEvalSharedMemoryUsage := getAverage p.evalGpuShared
  let gpuEvalDedicatedMemoryUsage := getAverage p.evalGpuDedicated
  let clockBindTime := o.clockBindTimes.sum / (m.numIterations : ℚ)
  let clockEvalTime := o.clockEvalTimes.sum / (m.numIterations : ℚ)
  let totalTime : Option ℚ :=
    match bindTime, evalTime with
    | some b, some e => some (loadTime.getD 0 + b + e)
    | _, _ => none
  [m.modelName,
   m.modelBinding,
   m.inputBinding,
   m.inputType,
   m.deviceCreationLocation,
   toString m.numIterations,
   boolCell m.firstRunIgnored,
   (match loadTime with
    | none => "N/A"
    | some v => toString v),
   renderAvgRaw bindTime,
   renderAvgRaw evalTime,
   renderAvgRaw totalTime,
   renderAvgRaw evalMemoryUsage,
   renderAvgRaw gpuEvalDedicatedMemoryUsage,
   renderAvgRaw gpuEvalSharedMemoryUsage,
   toString o.clockLoadTime,
   toString clockBindTime,
   toString clockEvalTime,
   toString (o.clockLoadTime + clockBindTime + clockEvalTime),
   o.fileNameIter,
   o.fileNameRes]

/-- The check-empty-then-append sequence shared by all the CSV writers: the
header is written exactly when the file is empty at write time, then the
new content is appended. -/
def appendRowsWithHeader (header : String) (file : List String)
    (rows : List String) : List String :=
  (if file.isEmpty then [header] else []) ++ file ++ rows

/-- `OutputHelper::WritePerformanceDataToCSV`: a no-op when
`m_csvFileName` is empty; otherwise append the summary row, preceded by
the header when the file is empty.  The file is a list of lines. -/
def writePerformanceDataToCSV (o : OutputHelperState) (p : ProfilerData)
    (m : SummaryRowMeta) (file : List String) : List String :=
  match o.csvFileName with
  | none => file
  | some _ =>
    appendRowsWithHeader summaryHeader file
      [String.intercalate "," (summaryDataRowCells o p m)]

/-- The header line of the per-iteration CSV (the source ends it with a
trailing comma). -/
def perIterationHeader : String :=
  "Model Name,Image Name,Iterations,Iteration Number ,Result,Hash,CPU Working Set Diff,CPU Working Set Start (MB),GPU Shared Memory Diff (MB),GPU Shared Memory Start (MB),GPU Dedicated Memory Diff (MB),Load (ms),Bind (ms),Evaluate (ms),"

/-- `OutputHelper::WritePerformanceDataToCSVPerIteration`: a no-op when
`m_csvFileNamePerIteration` is empty; otherwise the header when the file
is empty, then one row per iteration indexed from the stored per-iteration
vectors (`m_clockLoadTimes` is resized with zeroes first; reads past a
vector's recorded length are modelled by the `getD` defaults). -/
def writePerformanceDataToCSVPerIteration (o : OutputHelperState)
    (numIterations : ℕ) (modelName imgName : String) (file : List String) :
    List String :=
  match o.csvFileNamePerIteration with
  | none => file
  | some _ =>
    let rows := (List.range numIterations).map fun i =>
      String.intercalate ","
        [modelName,
         imgName,
         toString numIterations,
         toString (i + 1),
         o.results.getD i "",
         toString (o.hashes.getD i 0),
         toString (o.cpuWorkingDiff.getD i 0),
         toString (o.cpuWorkingStart.getD i 0),
         toString (o.gpuSharedDiff.getD i 0),
         toString (o.gpuSharedStart.getD i 0),
         toString (o.gpuDedicatedDiff.getD i 0),
         toString (o.clockLoadTimes.getD i 0),
         toString (o.clockBindTimes.getD i 0),
         toString (o.clockEvalTimes.getD i 0)]
    appendRowsWithHeader perIterationHeader file rows

/-- `OutputHelper::WriteTensorResultToCSV` (numeric specialization): a
no-op when `m_csvResult` is empty; otherwise the header (built from the
result vector's length, every cell followed by a comma) when the file is
empty, then one row with the iteration number and every element of the
result vector. -/
def writeTensorResultToCSV (o : OutputHelperState) (res : List ℚ)
    (iterNo : ℤ) (file : List String) : List String :=
  match o.csvResult with
  | none => file
  | some _ =>
    let header := "IterationNumber ," ++
      String.join ((List.range res.length).map fun i =>
        "Result[" ++ toString i ++ "],")
    let row := toString iterNo ++ "," ++
      String.join (res.map fun v => toString v ++ ",")
    appendRowsWithHeader header file [row]

/-- `OutputHelper::PrintResults`: console narration, emitted only when the
helper is not silent.  The Load line is guarded by
`isnan(loadTime) ? "N/A" : std::to_string(loadTime) + " ms"`; the Bind and
Evaluate lines stream the double raw.  (The source's working-set line
streams `gpuEvalDedicatedMemoryUsage`; kept as in the source.) -/
def printResults (silent : Bool) (p : ProfilerData) (numIterations : ℕ)
    (device inputBinding inputDataType deviceCreationLocation : String)
    (clockLoadTime : ℚ) (clockBindTimes clockEvalTimes : List ℚ) :
    List String :=
  if silent then []
  else
    let loadTime := getAverage p.loadTimer
    let bindTime := getAverage p.bindTimer
    let evalTime := getAverage p.evalTimer
    let gpuEvalSharedMemoryUsage := getAverage p.evalGpuShared
    let gpuEvalDedicatedMemoryUsage := getAverage p.evalGpuDedicated
    let clockBindTime := clockBindTimes.sum / (numIterations : ℚ)
    let clockEvalTime := clockEvalTimes.sum / (numIterations : ℚ)
    let totalTime : Option ℚ :=
      match bindTime, evalTime with
      | some b, some e => some (loadTime.getD 0 + b + e)
      | _, _ => none
    ["",
     "Results (device = " ++ device ++ ", numIterations = " ++
       toString numIterations ++ ", inputBinding = " ++ inputBinding ++
       ", inputDataType = " ++ inputDataType ++
       ", deviceCreationLocation = " ++ deviceCreationLocation ++ "):",
     "  Load: " ++
       (match loadTime with
        | none => "N/A"
        | some v => toString v ++ " ms"),
     "  Bind: " ++ renderAvgRaw bindTime ++ " ms",
     "  Evaluate: " ++ renderAvgRaw evalTime ++ " ms",
     "  Total Time: " ++ renderAvgRaw totalTime ++ " ms",
     "  Wall-Clock Load: " ++ toString clockLoadTime ++ " ms",
     "  Wall-Clock Bind: " ++ toString clockBindTime ++ " ms",
     "  Wall-Clock Evaluate: " ++ toString clockEvalTime ++ " ms",
     "  Total Wall-Clock Time: " ++
       toString (clockLoadTime + clockBindTime + clockEvalTime) ++ " ms",
     "  Working Set Memory usage (evaluate): " ++
       renderAvgRaw gpuEvalDedicatedMemoryUsage ++ " MB",
     "  Dedicated Memory Usage (evaluate): " ++
       renderAvgRaw gpuEvalDedicatedMemoryUsage ++ " MB",
     "  Shared Memory Usage (evaluate): " ++
       renderAvgRaw gpuEvalSharedMemoryUsage ++ " MB"]

/-! ## Fixtures for concrete evaluations -/

/-- A run behavior in which every step succeeds. -/
def allOkRun : ModelRunSpec :=
  ⟨Except.ok (), Except.ok (), fun _ => Except.ok ()⟩

/-- CPU-only directory arguments with one iteration. -/
def dirArgsCPU : DirArgs := ⟨false, true, false, 1⟩

/-- A model file whose load fails with HRESULT 1. -/
def badEntry : DirEntry := ⟨"bad.onnx", true, Except.error 1, allOkRun, allOkRun⟩

/-- A model file that loads and evaluates successfully. -/
def goodEntry : DirEntry := ⟨"good.onnx", true, Except.ok (), allOkRun, allOkRun⟩

/-- Evaluate outcomes failing at iteration 0 only. -/
def failFirstEval : ℕ → Except HRESULT Unit :=
  fun i => if i = 0 then Except.error 1 else Except.ok ()

/-- Evaluate outcomes failing at iteration 1 only, with HRESULT 7. -/
def failSecondEval : ℕ → Except HRESULT Unit :=
  fun i => if i = 1 then Except.error 7 else Except.ok ()

/-- OutputHelper fixture: summary file configured, nothing recorded. -/
def o0 : OutputHelperState :=
  ⟨false, some "out.csv", none, none, "", "", 0,
   [], [], [], [], [], [], [], [], [], []⟩

/-- Profiler fixture with zero samples in every slot. -/
def p0 : ProfilerData := ⟨[], [], [], [], [], []⟩

/-- Summary row meta fixture. -/
def m0 : SummaryRowMeta := ⟨"model", "CPU", "CPU", "Tensor", "WinML", 1, false⟩

/-- A per-channel offset fixture: offsets 1, 2, 3 for channels 0, 1, 2. -/
def meanFixture : Fin 3 → ℚ :=
  fun j => if j = 0 then 1 else if j = 1 then 2 else 3

/-- The data row a summary write appends, as one comma-joined line. -/
def summaryDataRow (w : OutputHelperState × ProfilerData × SummaryRowMeta) :
    String :=
  String.intercalate "," (summaryDataRowCells w.1 w.2.1 w.2.2)

/-- A whole sequence of summary writes against the same file. -/
def writeSummarySequence
    (writes : List (OutputHelperState × ProfilerData × SummaryRowMeta))
    (file : List String) : List String :=
  writes.foldl (fun f w => writePerformanceDataToCSV w.1 w.2.1 w.2.2 f) file

/-- Several write sequences applied one after another against the same
file: each inner list is the writes of one process lifetime, so the outer
list models process restarts (the only state carried across a restart is
the file itself). -/
def writeSummaryBatches
    (batches : List (List (OutputHelperState × ProfilerData × SummaryRowMeta)))
    (file : List String) : List String :=
  batches.foldl (fun f b => writeSummarySequence b f) file

/-! ## Helper lemmas -/

theorem writeDataToBinding_size (st : Storage) (row : List String) (n : ℕ) :
    (writeDataToBinding st row n = Except.error BindingError.invalidArgument ↔
      row.length ≠ n) ∧
    (row.length = n →
      ∃ l, writeDataToBinding st row n = Except.ok l ∧ l.length = row.length) := by
  unfold writeDataToBinding
  split
  case isTrue h =>
    exact ⟨⟨fun _ => fun hl => h hl.symm, fun _ => rfl⟩, fun hl => absurd hl.symm h⟩
  case isFalse h =>
    refine ⟨⟨fun hw => absurd hw (by simp), fun hne => absurd (by omega : row.length = n) hne⟩, ?_⟩
    exact fun _ => ⟨row.map (parseElement st), rfl, by simp⟩

theorem createBindableTensor_eq_write (kind : TensorKind) (st : Storage)
    (shape : List ℕ) (csvRow : Option (List String))
    (h : storageOf kind = some st) :
    createBindableTensor kind shape csvRow =
      writeDataToBinding st
        (match csvRow with
         | none => List.replicate shape.prod ""
         | some row => row) shape.prod := by
  cases kind <;> simp_all [createBindableTensor, storageOf]

/-! ## Claims -/

/-- C5: for every supported numeric element kind, building a tensor from a
CSV row fails with the validation error (`hresult_invalid_argument`)
exactly when the row's element count differs from the declared tensor
element count, and on exact equality succeeds writing all elements — the
result holds every parsed element of the row, never truncated or
padded. -/
theorem csv_row_length_must_match_exactly (kind : TensorKind) (st : Storage)
    (shape : List ℕ) (row : List String) (h : storageOf kind = some st) :
    (createBindableTensor kind shape (some row) =
        Except.error BindingError.invalidArgument ↔
      row.length ≠ shape.prod) ∧
    (row.length = shape.prod →
      ∃ l, createBindableTensor kind shape (some row) = Except.ok l ∧
        l.length = row.length) := by
  rw [createBindableTensor_eq_write kind st shape (some row) h]
  exact writeDataToBinding_size st row shape.prod

/-- Witness for C5: a Float tensor of shape [1,3,2,2] (12 elements) accepts
a 12-cell row, writing all 12 elements. -/
theorem csv_row_length_must_match_exactly_witness :
    ∃ l, createBindableTensor TensorKind.float [1, 3, 2, 2]
        (some (List.replicate 12 "0")) = Except.ok l ∧ l.length = 12 := by
  have h := (csv_row_length_must_match_exactly TensorKind.float Storage.f32
    [1, 3, 2, 2] (List.replicate 12 "0") rfl).2 (by decide)
  simpa using h

/-- C9: the Int8 and UInt8 cases both instantiate the unsigned 8-bit
storage, and stream extraction into that storage consumes one character:
for a cell whose first character is not whitespace, the stored element is
that character's code, not the cell's decimal value. -/
theorem int8_uint8_store_first_char_code (c : Char) (cs : List Char)
    (h : cppIsSpace c = false) :
    storageOf TensorKind.int8 = some Storage.u8 ∧
    storageOf TensorKind.uint8 = some Storage.u8 ∧
    parseElement Storage.u8 (String.mk (c :: cs)) = some ((c.toNat : ℚ)) := by
  refine ⟨rfl, rfl, ?_⟩
  simp [parseElement, extractChar, String.toList, List.dropWhile_cons, h]

/-- Witness for C9: the cell "12" stores 49 (the code of '1'), not 12. -/
theorem int8_uint8_store_first_char_code_witness :
    storageOf TensorKind.int8 = some Storage.u8 ∧
    storageOf TensorKind.uint8 = some Storage.u8 ∧
    parseElement Storage.u8 "12" = some 49 := by
  have h := int8_uint8_store_first_char_code '1' ['2'] (by decide)
  refine ⟨h.1, h.2.1, ?_⟩
  rw [show ("12" : String) = String.mk ['1', '2'] from rfl, h.2.2,
    show '1'.toNat = 49 from rfl]
  norm_num

/-- C10: for every supported numeric element kind, synthetic construction
(no CSV path) builds its placeholder element-string vector with exactly
the declared buffer size, so the size-mismatch branch cannot fire and the
returned tensor's element count equals the declared shape product. -/
theorem synthetic_build_returns_declared_size (kind : TensorKind)
    (st : Storage) (shape : List ℕ) (h : storageOf kind = some st) :
    ∃ l, createBindableTensor kind shape none = Except.ok l ∧
      l.length = shape.prod := by
  rw [createBindableTensor_eq_write kind st shape none h]
  have hw := (writeDataToBinding_size st (List.replicate shape.prod "")
    shape.prod).2 (by simp)
  simpa using hw

/-- Witness for C10: a Float tensor of shape [1,3,2,2] synthesizes 12
elements. -/
theorem synthetic_build_returns_declared_size_witness :
    ∃ l, createBindableTensor TensorKind.float [1, 3, 2, 2] none =
      Except.ok l ∧ l.length = 12 := by
  have h := synthetic_build_returns_declared_size TensorKind.float
    Storage.f32 [1, 3, 2, 2] rfl
  simpa using h

theorem evalLoopAux_abort (evalAt : ℕ → Except HRESULT Unit) (e : HRESULT)
    (j : ℕ) (he : evalAt j = Except.error e)
    (fuel i : ℕ) (hlt : j < i + fuel) (hle : i ≤ j)
    (hok : ∀ k, i ≤ k → k < j → evalAt k = Except.ok ()) :
    evalLoopAux evalAt fuel i = ⟨Except.error e, j + 1, j⟩ := by
  induction fuel generalizing i with
  | zero => omega
  | succ fuel ih =>
    rcases eq_or_lt_of_le hle with hij | hij
    · subst hij
      simp [evalLoopAux, he]
    · have hi : evalAt i = Except.ok () := hok i le_rfl hij
      simp only [evalLoopAux, hi]
      exact ih (i + 1) (by omega) (by omega)
        (fun k hk1 hk2 => hok k (by omega) hk2)

/-- C1 counterexample: a directory of two model files where the first fails
to load (HRESULT 1) and the second loads and evaluates successfully.  The
claim requires the successful model's summary row to be produced; the code
returns from `EvaluateModelsInDirectory` at the load failure, so no row at
all is written — the successful model is never processed. -/
theorem directory_load_failure_halts_batch_counterexample :
    evaluateModelsInDirectory dirArgsCPU [badEntry, goodEntry] = ([], 1) ∧
    goodEntry.name ∉ (evaluateModelsInDirectory dirArgsCPU
      [badEntry, goodEntry]).1 := by
  constructor
  · rfl
  · rw [show evaluateModelsInDirectory dirArgsCPU [badEntry, goodEntry] =
      ([], 1) from rfl]
    simp

/-- C1 amended: a model's load failure is not isolated — it aborts the
whole directory loop, returning that load error.  Models after the failing
one are not processed, and the summary rows written are exactly those of
the model files strictly before the failing one (assuming those all loaded
and evaluated successfully). -/
theorem directory_load_failure_aborts_batch (args : DirArgs)
    (pre : List DirEntry) (e : DirEntry) (post : List DirEntry)
    (hr : HRESULT)
    (hpre : ∀ x ∈ pre, x.isModelFile = true ∧ x.loadResult = Except.ok () ∧
      evalEntryDevices args x = S_OK)
    (he : e.isModelFile = true) (hload : e.loadResult = Except.error hr) :
    evaluateModelsInDirectory args (pre ++ e :: post) =
      (pre.map DirEntry.name, hr) := by
  induction pre with
  | nil => simp [evaluateModelsInDirectory, he, hload]
  | cons x xs ih =>
    obtain ⟨h1, h2, h3⟩ := hpre x (List.mem_cons_self _ _)
    have ihx := ih (fun y hy => hpre y (List.mem_cons_of_mem _ hy))
    simp [evaluateModelsInDirectory, h1, h2, h3, ihx]

/-- Witness for the amended C1: one successful model followed by a failing
one yields exactly the successful model's row and the load error. -/
theorem directory_load_failure_aborts_batch_witness :
    evaluateModelsInDirectory dirArgsCPU [goodEntry, badEntry] =
      (["good.onnx"], 1) := by
  have h := directory_load_failure_aborts_batch dirArgsCPU [goodEntry]
    badEntry [] 1
    (by intro x hx
        simp only [List.mem_singleton] at hx
        subst hx
        exact ⟨rfl, rfl, rfl⟩)
    rfl rfl
  simpa using h

/-- C2 counterexample: three requested iterations with an evaluate failure
(HRESULT 1) at iteration 0 only — later iterations would succeed.  The
claim requires the loop to record the failed iteration and run the
remaining two; the code returns `hr.code()` from `EvaluateModel` at the
first failure: only 1 evaluate call is attempted, no iteration result is
recorded, and iterations 1 and 2 never run. -/
theorem eval_failure_stops_loop_counterexample :
    (evalLoop 3 failFirstEval).hr = Except.error 1 ∧
    (evalLoop 3 failFirstEval).evalAttempts = 1 ∧
    (evalLoop 3 failFirstEval).recordedTimes = 0 :=
  ⟨rfl, rfl, rfl⟩

/-- C2 amended: a failure of a single evaluate call aborts the whole
configuration immediately — `EvaluateModel` returns that failure's code,
the failing iteration's time is not recorded, and none of the remaining
iterations run. -/
theorem eval_failure_aborts_configuration (numIterations j : ℕ)
    (e : HRESULT) (evalAt : ℕ → Except HRESULT Unit)
    (hj : j < numIterations)
    (hok : ∀ k, k < j → evalAt k = Except.ok ())
    (he : evalAt j = Except.error e) :
    evalLoop numIterations evalAt = ⟨Except.error e, j + 1, j⟩ :=
  evalLoopAux_abort evalAt e j he numIterations 0 (by omega) (by omega)
    (fun k _ hk2 => hok k hk2)

/-- Witness for the amended C2: failure at iteration 1 of 3 aborts with 2
attempts and 1 recorded time. -/
theorem eval_failure_aborts_configuration_witness :
    evalLoop 3 failSecondEval = ⟨Except.error 7, 2, 1⟩ := by
  have h := eval_failure_aborts_configuration 3 1 7 failSecondEval
    (by omega)
    (by intro k hk
        interval_cases k
        rfl)
    rfl
  simpa using h

theorem sumAfterFirst_zero (dur : ℕ → ℚ) : sumAfterFirst dur 0 = 0 := by
  simp [sumAfterFirst]

theorem sumAfterFirst_succ (dur : ℕ → ℚ) (m : ℕ) :
    sumAfterFirst dur (m + 1) = sumAfterFirst dur m + dur (m + 1) := by
  simp [sumAfterFirst, List.range_succ]

theorem timedEvalLoopAux_stop (dur : ℕ → ℚ) (ms : ℚ) (k : ℕ)
    (hbelow : ∀ j, j < k → sumAfterFirst dur j ≤ ms)
    (hexceed : ms < sumAfterFirst dur k) :
    ∀ fuel i, i ≤ k + 1 → k + 1 ≤ i + fuel →
      timedEvalLoopAux dur true ms fuel i (sumAfterFirst dur (i - 1)) =
        k + 1 := by
  intro fuel
  induction fuel with
  | zero =>
    intro i h1 h2
    have : i = k + 1 := by omega
    simp [timedEvalLoopAux, this]
  | succ fuel ih =>
    intro i h1 h2
    rcases eq_or_lt_of_le h1 with hik | hik
    · have hstop : (true = true ∧ 1 ≤ i ∧ ms < sumAfterFirst dur (i - 1)) := by
        refine ⟨rfl, by omega, ?_⟩
        have : i - 1 = k := by omega
        rw [this]
        exact hexceed
      rw [timedEvalLoopAux, if_pos hstop]
      exact hik
    · have hik' : i ≤ k := by omega
      have hnostop : ¬ (true = true ∧ 1 ≤ i ∧ ms < sumAfterFirst dur (i - 1)) := by
        rintro ⟨-, hi1, hgt⟩
        exact absurd (hbelow (i - 1) (by omega)) (not_le.mpr hgt)
      rw [timedEvalLoopAux, if_neg hnostop]
      rcases Nat.eq_zero_or_pos i with hz | hpos
      · subst hz
        have hre : sumAfterFirst dur (0 - 1) + (if (0 : ℕ) = 0 then 0 else dur 0) =
            sumAfterFirst dur ((0 + 1) - 1) := by
          simp
        rw [hre]
        exact ih (0 + 1) (by omega) (by omega)
      · have hre : sumAfterFirst dur (i - 1) + (if i = 0 then 0 else dur i) =
            sumAfterFirst dur ((i + 1) - 1) := by
          rw [if_neg (by omega)]
          have hi : i - 1 + 1 = i := by omega
          have := sumAfterFirst_succ dur (i - 1)
          rw [hi] at this
          simp [this]
        rw [hre]
        exact ih (i + 1) (by omega) (by omega)

/-- C3 (modelled from the spec, see `timedEvalLoopAux`): once the
cumulative elapsed time of the iterations after the first exceeds the
configured budget (first at iteration `k`), the loop stops before starting
iteration `k + 1` — completing `k + 1` iterations even when the requested
count is larger — and the iteration count the configuration reports for
statistics is that actual completed count, bounded by the requested
count. -/
theorem time_limit_stops_early_and_reports_actual
    (args0 : CommandLineArgsState) (ms : ℚ) (dur : ℕ → ℚ) (k : ℕ)
    (hbelow : ∀ j, j < k → sumAfterFirst dur j ≤ ms)
    (hexceed : ms < sumAfterFirst dur k)
    (hk : k + 1 ≤ args0.numIterations) :
    completedIterations (setIterationTimeLimit args0 ms) dur = k + 1 ∧
    (runConfigurationReport (setIterationTimeLimit args0 ms) dur).iterations =
      k + 1 ∧
    k + 1 ≤ args0.numIterations := by
  have h0 : (0 : ℚ) = sumAfterFirst dur (0 - 1) := by
    simp [sumAfterFirst_zero]
  have hmain : completedIterations (setIterationTimeLimit args0 ms) dur = k + 1 := by
    unfold completedIterations setIterationTimeLimit
    simp only
    rw [h0]
    exact timedEvalLoopAux_stop dur ms k hbelow hexceed args0.numIterations 0
      (by omega) (by omega)
  exact ⟨hmain, by simp [runConfigurationReport, hmain], hk⟩

/-- Witness for C3: a 1 ms budget with 1000 requested iterations and a
5 ms per-iteration cost completes exactly 2 iterations (far below 1000),
and the report says 2. -/
theorem time_limit_stops_early_and_reports_actual_witness :
    completedIterations
      (setIterationTimeLimit { numIterations := 1000 } 1) (fun _ => 5) = 2 ∧
    (runConfigurationReport
      (setIterationTimeLimit { numIterations := 1000 } 1)
      (fun _ => 5)).iterations = 2 ∧
    2 ≤ 1000 := by
  have h := time_limit_stops_early_and_reports_actual
    { numIterations := 1000 } 1 (fun _ => 5) 1
    (by intro j hj
        interval_cases j
        simp [sumAfterFirst_zero])
    (by rw [sumAfterFirst_succ, sumAfterFirst_zero]
        norm_num)
    (by norm_num)
  exact ⟨h.1, h.2.1, by norm_num⟩

theorem writeSummarySequence_of_ne_nil
    (writes : List (OutputHelperState × ProfilerData × SummaryRowMeta))
    (h : ∀ w ∈ writes, w.1.csvFileName ≠ none) :
    ∀ file, file ≠ [] →
      writeSummarySequence writes file = file ++ writes.map summaryDataRow := by
  induction writes with
  | nil =>
    intro file _
    simp [writeSummarySequence]
  | cons w ws ih =>
    intro file hf
    obtain ⟨fn, hfn⟩ :=
      Option.ne_none_iff_exists'.mp (h w (List.mem_cons_self _ _))
    obtain ⟨a, as, rfl⟩ := List.exists_cons_of_ne_nil hf
    have hstep : writePerformanceDataToCSV w.1 w.2.1 w.2.2 (a :: as) =
        (a :: as) ++ [summaryDataRow w] := by
      simp [writePerformanceDataToCSV, hfn, appendRowsWithHeader, summaryDataRow]
    have htail := ih (fun y hy => h y (List.mem_cons_of_mem _ hy))
      ((a :: as) ++ [summaryDataRow w]) (by simp)
    calc writeSummarySequence (w :: ws) (a :: as)
        = writeSummarySequence ws
            (writePerformanceDataToCSV w.1 w.2.1 w.2.2 (a :: as)) := rfl
      _ = writeSummarySequence ws ((a :: as) ++ [summaryDataRow w]) := by
            rw [hstep]
      _ = (a :: as) ++ [summaryDataRow w] ++ ws.map summaryDataRow := htail
      _ = (a :: as) ++ (w :: ws).map summaryDataRow := by simp

theorem writeSummaryBatches_eq_join
    (batches : List (List (OutputHelperState × ProfilerData × SummaryRowMeta))) :
    ∀ file, writeSummaryBatches batches file =
      writeSummarySequence batches.flatten file := by
  induction batches with
  | nil =>
    intro file
    simp [writeSummaryBatches, writeSummarySequence]
  | cons b bs ih =>
    intro file
    calc writeSummaryBatches (b :: bs) file
        = writeSummaryBatches bs (writeSummarySequence b file) := rfl
      _ = writeSummarySequence bs.flatten (writeSummarySequence b file) := ih _
      _ = writeSummarySequence (b :: bs).flatten file := by
            simp only [writeSummarySequence, List.flatten_cons, List.foldl_append]

/-- C6: writing summary rows to the same CSV file across any number of
process restarts: the header is written exactly when the file is empty at
write time, so N data rows over M restarts yield exactly 1 header line
followed by the N data lines in write order — the header is never
rewritten or changed after the first write. -/
theorem summary_header_written_exactly_once
    (batches : List (List (OutputHelperState × ProfilerData × SummaryRowMeta)))
    (h : ∀ w ∈ batches.flatten, w.1.csvFileName ≠ none) :
    writeSummaryBatches batches [] =
      if batches.flatten.isEmpty then []
      else summaryHeader :: batches.flatten.map summaryDataRow := by
  rw [writeSummaryBatches_eq_join batches []]
  rcases hj : batches.flatten with _ | ⟨w, ws⟩
  · simp [writeSummarySequence]
  · rw [hj] at h
    obtain ⟨fn, hfn⟩ :=
      Option.ne_none_iff_exists'.mp (h w (List.mem_cons_self _ _))
    have hstep : writePerformanceDataToCSV w.1 w.2.1 w.2.2 [] =
        [summaryHeader, summaryDataRow w] := by
      simp [writePerformanceDataToCSV, hfn, appendRowsWithHeader, summaryDataRow]
    have htail := writeSummarySequence_of_ne_nil ws
      (fun y hy => h y (List.mem_cons_of_mem _ hy))
      [summaryHeader, summaryDataRow w] (by simp)
    calc writeSummarySequence (w :: ws) []
        = writeSummarySequence ws (writePerformanceDataToCSV w.1 w.2.1 w.2.2 []) := rfl
      _ = writeSummarySequence ws [summaryHeader, summaryDataRow w] := by rw [hstep]
      _ = [summaryHeader, summaryDataRow w] ++ ws.map summaryDataRow := htail
      _ = if (w :: ws).isEmpty then []
          else summaryHeader :: (w :: ws).map summaryDataRow := by simp

/-- Witness for C6: three rows over two restarts (2 writes, then 1) yield
one header and three data lines. -/
theorem summary_header_written_exactly_once_witness :
    writeSummaryBatches [[(o0, p0, m0), (o0, p0, m0)], [(o0, p0, m0)]] [] =
      summaryHeader ::
        [(o0, p0, m0), (o0, p0, m0), (o0, p0, m0)].map summaryDataRow := by
  have h := summary_header_written_exactly_once
    [[(o0, p0, m0), (o0, p0, m0)], [(o0, p0, m0)]]
    (by intro w hw
        have hww : w = (o0, p0, m0) := by
          simp only [List.flatten_cons, List.flatten_nil, List.append_nil,
            List.mem_cons, List.mem_append, List.mem_singleton,
            List.not_mem_nil, or_false] at hw
          tauto
        simp [hww, o0])
  simpa using h

/-- C7 counterexample: with zero recorded Bind samples the summary data
row's "Bind (ms)" cell streams the NaN sentinel raw, printing "nan" — not
"N/A" as the claim requires of every consumer. -/
theorem zero_sample_bind_cell_not_na_counterexample :
    (summaryDataRowCells o0 p0 m0)[8]? = some "nan" ∧
    ("nan" : String) ≠ "N/A" := by
  constructor
  · rfl
  · decide

/-- C7 amended: the running average over zero samples yields the
not-available sentinel (NaN, modelled `none`) — never the number 0 — but
only the Load time is rendered as "N/A" (in the summary CSV row and in the
console results); other zero-sample cells, e.g. Bind, stream the sentinel
as "nan". -/
theorem zero_sample_average_rendering (o : OutputHelperState)
    (p : ProfilerData) (m : SummaryRowMeta) (n : ℕ)
    (device ib idt dcl : String) (clt : ℚ) (cbt cet : List ℚ)
    (hload : p.loadTimer = []) (hbind : p.bindTimer = []) :
    getAverage ([] : List ℚ) = none ∧
    (summaryDataRowCells o p m)[7]? = some "N/A" ∧
    (summaryDataRowCells o p m)[8]? = some "nan" ∧
    (printResults false p n device ib idt dcl clt cbt cet)[2]? =
      some "  Load: N/A" := by
  refine ⟨rfl, ?_, ?_, ?_⟩ <;>
    simp [summaryDataRowCells, printResults, hload, hbind, getAverage,
      renderAvgRaw]

/-- Witness for the amended C7 at the zero-sample fixture. -/
theorem zero_sample_average_rendering_witness :
    getAverage ([] : List ℚ) = none ∧
    (summaryDataRowCells o0 p0 m0)[7]? = some "N/A" ∧
    (summaryDataRowCells o0 p0 m0)[8]? = some "nan" ∧
    (printResults false p0 1 "CPU" "CPU" "Tensor" "WinML" 0 [] [])[2]? =
      some "  Load: N/A" :=
  zero_sample_average_rendering o0 p0 m0 1 "CPU" "CPU" "Tensor" "WinML"
    0 [] [] rfl rfl

/-- C8: none of the three CSV writers reads the silent flag — for any two
helper states identical except for `m_silent`, the summary, per-iteration
and raw-output file contents they produce are identical (the flag gates
only the console-printing member functions). -/
theorem silent_flag_never_affects_file_output (o : OutputHelperState)
    (b : Bool) (p : ProfilerData) (m : SummaryRowMeta) (n : ℕ)
    (modelName imgName : String) (res : List ℚ) (iterNo : ℤ)
    (fileA fileB fileC : List String) :
    writePerformanceDataToCSV { o with silent := b } p m fileA =
      writePerformanceDataToCSV o p m fileA ∧
    writePerformanceDataToCSVPerIteration { o with silent := b } n
        modelName imgName fileB =
      writePerformanceDataToCSVPerIteration o n modelName imgName fileB ∧
    writeTensorResultToCSV { o with silent := b } res iterNo fileC =
      writeTensorResultToCSV o res iterNo fileC :=
  ⟨rfl, rfl, rfl⟩

/-- C4 counterexample: with scale 1 (for any offsets, here all 1) the
guard `scale != 1.0f && (offsets nonzero)` fails, the de-interleaving loop
never runs, and the returned buffer is entirely unwritten — cell 0 is
`none`, not the claimed `(7 - 1) / 1`. -/
theorem image_preprocess_skipped_counterexample :
    preProcessImageToBinding 1 1 (fun _ => 7) 3 1 (fun _ => 1) id =
      Except.ok [none, none, none] ∧
    (none : Option ℚ) ≠ some (((7 : ℚ) - 1) / 1) := by
  constructor
  · rfl
  · simp

/-- C4 amended: whenever the scale is not 1 and at least one per-channel
offset is nonzero (the source's guard), and the declared buffer size is
`height * width * 3`, the construction de-interleaves the packed 4-channel
pixel buffer into planar channel-major order: for every pixel position
`i`, position `i` holds `(pixel[4i] - offset0) / scale`, position
`i + h*w` holds `(pixel[4i+1] - offset1) / scale`, and position
`i + 2*h*w` holds `(pixel[4i+2] - offset2) / scale`, each computed in
floating point and narrowed only on store (`narrow`).  When the guard
fails the buffer is left unwritten. -/
theorem image_preprocess_planar_store (imgHeight imgWidth : ℕ)
    (sb : ℕ → ℕ) (scale : ℚ) (mean : Fin 3 → ℚ) (narrow : ℚ → ℚ)
    (hscale : scale ≠ 1)
    (hmean : mean 0 ≠ 0 ∨ mean 1 ≠ 0 ∨ mean 2 ≠ 0)
    (i : ℕ) (hi : i < imgHeight * imgWidth) :
    ∃ buf, preProcessImageToBinding imgHeight imgWidth sb
        (imgHeight * imgWidth * 3) scale mean narrow = Except.ok buf ∧
      buf[i]? =
        some (some (narrow (((sb (4 * i) : ℚ) - mean 0) / scale))) ∧
      buf[i + imgHeight * imgWidth]? =
        some (some (narrow (((sb (4 * i + 1) : ℚ) - mean 1) / scale))) ∧
      buf[i + 2 * (imgHeight * imgWidth)]? =
        some (some (narrow (((sb (4 * i + 2) : ℚ) - mean 2) / scale))) := by
  refine ⟨deinterleavedBuffer (imgHeight * imgWidth) sb scale mean narrow,
    ?_, ?_, ?_, ?_⟩
  · unfold preProcessImageToBinding
    rw [if_neg (by omega), if_pos ⟨hscale, hmean⟩]
  · unfold deinterleavedBuffer
    rw [List.getElem?_map, List.getElem?_range (by omega)]
    simp only [Option.map_some']
    rw [if_pos hi]
  · unfold deinterleavedBuffer
    rw [List.getElem?_map, List.getElem?_range (by omega)]
    simp only [Option.map_some']
    rw [if_neg (by omega), if_pos (by omega),
      show i + imgHeight * imgWidth - imgHeight * imgWidth = i from by omega]
  · unfold deinterleavedBuffer
    rw [List.getElem?_map, List.getElem?_range (by omega)]
    simp only [Option.map_some']
    rw [if_neg (by omega), if_neg (by omega),
      show i + 2 * (imgHeight * imgWidth) - 2 * (imgHeight * imgWidth) = i
        from by omega]

/-- Witness for the amended C4: a 1x1 image with packed bytes 10, 12, 14
(channels 0, 1, 2 of pixel 0), scale 2 and offsets 1, 2, 3 yields the
planar cells 9/2, 5, 11/2. -/
theorem image_preprocess_planar_store_witness :
    ∃ buf, preProcessImageToBinding 1 1 (fun k => 10 + 2 * k) 3 2
        meanFixture id = Except.ok buf ∧
      buf[0]? = some (some ((9 : ℚ) / 2)) ∧
      buf[1]? = some (some ((5 : ℚ))) ∧
      buf[2]? = some (some ((11 : ℚ) / 2)) := by
  have h := image_preprocess_planar_store 1 1 (fun k => 10 + 2 * k) 2
    meanFixture id (by norm_num)
    (Or.inl (by rw [show meanFixture 0 = 1 from rfl]; norm_num))
    0 (by norm_num)
  obtain ⟨buf, hb, h0, h1, h2⟩ := h
  rw [show meanFixture 0 = 1 from rfl] at h0
  rw [show meanFixture 1 = 2 from rfl] at h1
  rw [show meanFixture 2 = 3 from rfl] at h2
  norm_num at h0 h1 h2
  exact ⟨buf, hb, h0, h1, h2⟩

end WinMLRunner
